import Mathlib

/-!
Verification of the contact persistence and lookup layer of the
contacts-tui repository.

The repository ships two storage backings:

* an SQLite-backed store (src/storage.py, records from src/models.py), and
* a JSON-file-backed store (src/services/storage.py, records from
  src/models/contact.py).

Both are embedded shallowly below.  Python strings are modelled as Lean
strings; the string helpers used by the code (str.strip, str.lower) are
re-implemented structurally on the character list so that concrete
instances evaluate inside the kernel.  Python datetimes are modelled by
their ISO-8601 text: datetime.isoformat and datetime.fromisoformat are
mutually inverse standard-library functions outside this repository, so
the embedding identifies a datetime value with its ISO rendering and the
two conversions become the identity.  SQLite itself is likewise outside
the repository: the table of the SQLite variant is modelled as a list of
rows in insertion (rowid) order, the NOCASE collation as comparison of
lower-cased text, the PRIMARY KEY uniqueness violation as the
IntegrityError branch of the Python code, and ORDER BY as sorting.
-/

namespace ContactsTui

/-! ### String helpers (models of Python str methods) -/

/-- Lower-case every character (model of Python str.lower; faithful on
ASCII, which is also all that the SQLite NOCASE collation folds). -/
def lowerChars : List Char → List Char
  | [] => []
  | c :: cs => Char.toLower c :: lowerChars cs

/-- Model of Python str.lower. -/
def pyLower (s : String) : String := ⟨lowerChars s.data⟩

/-- Drop leading whitespace characters. -/
def dropWs : List Char → List Char
  | [] => []
  | c :: cs => if c.isWhitespace then dropWs cs else c :: cs

/-- Model of Python str.strip(): remove leading and trailing
whitespace. -/
def pyStrip (s : String) : String := ⟨(dropWs (dropWs s.data).reverse).reverse⟩

/-- The guard pattern used all over src/storage.py:
not name or not isinstance(name, str) or not name.strip().
In the typed model the isinstance test is always true, and an empty
string strips to an empty string, so the guard reduces to: the stripped
text is empty. -/
def isBlank (s : String) : Bool := pyStrip s == ""

/-- Case-insensitive equality of two strings, the comparison used both
by the Python name.lower() == other.lower() loops of
src/services/storage.py and by the NOCASE collation of src/storage.py. -/
def ciEq (a b : String) : Bool := pyLower a == pyLower b

/-- Byte-order comparison of lower-cased text: the ordering that the
SQLite clause ORDER BY name COLLATE NOCASE realises. -/
def charsLe : List Char → List Char → Bool
  | [], _ => true
  | _ :: _, [] => false
  | a :: as, b :: bs =>
    if a.toNat < b.toNat then true
    else if b.toNat < a.toNat then false
    else charsLe as bs

/-! ### The contact record

src/models.py and src/models/contact.py declare the same five fields
(name, phone, email, notes, last_contacted); they differ only in the
pydantic field constraints, which are modelled separately below. -/

/-- A datetime is identified with its ISO-8601 text (see the header). -/
abbrev PyDateTime := String

/-- Model of datetime.isoformat (the identity under this embedding). -/
def isoformat (d : PyDateTime) : String := d

/-- Model of datetime.fromisoformat (the identity under this
embedding). -/
def fromisoformat (s : String) : PyDateTime := s

/-- The Contact record of src/models.py and src/models/contact.py. -/
structure Contact where
  name : String
  phone : String
  email : Option String := none
  notes : Option String := none
  last_contacted : Option PyDateTime := none
deriving DecidableEq, Repr

/-- The pydantic field constraints of src/models.py (Contact):
name min_length 1 max_length 100, phone min_length 5 max_length 20,
email max_length 100, notes max_length 1000.  Construction of a Contact
in that module succeeds exactly when this validation passes.
(src/models/contact.py declares no constraints at all.) -/
def pydanticValid (name phone : String) (email notes : Option String) : Bool :=
  1 ≤ name.length && name.length ≤ 100 &&
  5 ≤ phone.length && phone.length ≤ 20 &&
  (match email with | none => true | some e => e.length ≤ 100) &&
  (match notes with | none => true | some n => n.length ≤ 1000)

/-- Construction of a Contact as src/models.py performs it: the pydantic
constraints are checked and a failing record is rejected. -/
def contactNew (name phone : String) (email notes : Option String)
    (last_contacted : Option PyDateTime) : Option Contact :=
  if pydanticValid name phone email notes then
    some ⟨name, phone, email, notes, last_contacted⟩
  else none

/-! ### JSON serialization (src/models.py Contact.from_json, pydantic
Contact.json, src/services/storage.py save_contacts/load_contacts) -/

/-- One element of the serialized contacts array: the dictionary
produced by json.loads(contact.json()) in save_contacts.  Datetimes
appear as ISO text, absent optionals as null. -/
structure ContactJson where
  name : String
  phone : String
  email : Option String
  notes : Option String
  last_contacted : Option String
deriving DecidableEq, Repr

/-- Serialization of one contact by pydantic BaseModel.json (fields as
they are, the datetime rendered through isoformat). -/
def Contact.to_json (c : Contact) : ContactJson :=
  ⟨c.name, c.phone, c.email, c.notes, c.last_contacted.map isoformat⟩

/-- Contact.from_json of src/models.py: if last_contacted is present and
truthy it is converted by datetime.fromisoformat, otherwise the value is
passed through unchanged; every other field is passed through. -/
def Contact.from_json (j : ContactJson) : Contact :=
  { name := j.name, phone := j.phone, email := j.email, notes := j.notes,
    last_contacted :=
      match j.last_contacted with
      | none => none
      | some s => if s == "" then some s else some (fromisoformat s) }

/-! ### The JSON-file-backed store (src/services/storage.py)

The store holds self.contacts, a plain Python list; the backing file
holds either nothing, unparseable text, or a serialized array. -/

/-- The observable states of the backing JSON file. -/
inductive JsonFileState where
  /-- The file does not exist (open raises FileNotFoundError). -/
  | missing
  /-- The file exists but is zero bytes (json.load raises
  JSONDecodeError). -/
  | fileEmpty
  /-- The file exists but its text is not valid JSON (json.load raises
  JSONDecodeError). -/
  | malformed
  /-- The file holds a serialized array of contact dictionaries. -/
  | data (cs : List ContactJson)
deriving DecidableEq, Repr

/-- load_contacts of src/services/storage.py.  The try block catches
FileNotFoundError only; a JSONDecodeError from json.load on empty or
malformed content escapes and the constructor raises.  An uncaught
exception is modelled as Except.error naming the Python exception. -/
def load_contacts : JsonFileState → Except String (List Contact)
  | .missing => .ok []
  | .fileEmpty => .error "json.JSONDecodeError"
  | .malformed => .error "json.JSONDecodeError"
  | .data cs => .ok (cs.map Contact.from_json)

/-- save_contacts of src/services/storage.py: the whole in-memory list
is serialized and written to the file. -/
def save_contacts (contacts : List Contact) : JsonFileState :=
  .data (contacts.map Contact.to_json)

/-- add_contact of src/services/storage.py: appends unconditionally
(no duplicate check, no validation) and saves. -/
def jsonAddContact (contacts : List Contact) (c : Contact) : List Contact :=
  contacts ++ [c]

/-- get_all_contacts of src/services/storage.py: returns self.contacts
itself, unsorted. -/
def jsonGetAllContacts (contacts : List Contact) : List Contact :=
  contacts

/-- get_contact_by_name of src/services/storage.py: first contact whose
lower-cased name equals the lower-cased query; no blank guard, no
stripping. -/
def jsonGetContactByName (contacts : List Contact) (name : String) : Option Contact :=
  contacts.find? fun c => ciEq c.name name

/-- update_contact of src/services/storage.py: the first contact whose
lower-cased name matches is replaced wholesale by updated_contact
(all fields, last_contacted included); returns false and changes
nothing when no contact matches. -/
def jsonUpdateContact : List Contact → String → Contact → Bool × List Contact
  | [], _, _ => (false, [])
  | c :: rest, name, uc =>
    if ciEq c.name name then (true, uc :: rest)
    else
      let r := jsonUpdateContact rest name uc
      (r.1, c :: r.2)

/-- delete_contact of src/services/storage.py: deletes the first
contact whose lower-cased name matches; returns false and changes
nothing when no contact matches. -/
def jsonDeleteContact : List Contact → String → Bool × List Contact
  | [], _ => (false, [])
  | c :: rest, name =>
    if ciEq c.name name then (true, rest)
    else
      let r := jsonDeleteContact rest name
      (r.1, c :: r.2)

/-! ### The SQLite-backed store (src/storage.py)

The contacts table is modelled as a list of rows in insertion (rowid)
order.  The created_at and updated_at housekeeping columns are filled by
SQLite clock defaults and never read back by the code, so they are
omitted from the row model. -/

/-- One row of the contacts table (the columns the code reads). -/
structure Row where
  name : String
  phone : String
  email : Option String
  notes : Option String
  last_contacted : Option String
deriving DecidableEq, Repr

/-- The table in insertion order. -/
abbrev Db := List Row

/-- Row r matches the (already stripped) query text q under the NOCASE
collation: WHERE name = ? COLLATE NOCASE. -/
def rowMatches (q : String) (r : Row) : Bool := ciEq r.name q

/-- The case-folded names of the table are pairwise distinct: the
invariant that the PRIMARY KEY COLLATE NOCASE constraint of _init_db
maintains. -/
def ciNodup : Db → Bool
  | [] => true
  | r :: rs => !(rs.any fun r2 => ciEq r2.name r.name) && ciNodup rs

/-- _validate_contact of src/storage.py: name and phone must be strings
(always true in the typed model) that are non-empty and not
whitespace-only. -/
def validateContact (c : Contact) : Bool :=
  if c.name == "" || pyStrip c.name == "" then false
  else if c.phone == "" || pyStrip c.phone == "" then false
  else true

/-- The value the code binds for an optional column:
field.strip() if field else None.  None and the empty string are falsy
and bound as NULL; any other text is stripped. -/
def stripOpt : Option String → Option String
  | none => none
  | some s => if s == "" then none else some (pyStrip s)

/-- The row of column values add_contact and update_contact bind for a
contact: name and phone stripped, the optionals stripped-or-NULL, the
datetime rendered through isoformat. -/
def rowOfContact (c : Contact) : Row :=
  { name := pyStrip c.name, phone := pyStrip c.phone,
    email := stripOpt c.email, notes := stripOpt c.notes,
    last_contacted := c.last_contacted.map isoformat }

/-- The contact that get_all_contacts and get_contact_by_name build from
a fetched row: the column values as stored, the datetime text parsed by
fromisoformat when non-NULL. -/
def contactOfRow (r : Row) : Contact :=
  { name := r.name, phone := r.phone, email := r.email, notes := r.notes,
    last_contacted := r.last_contacted.map fromisoformat }

/-- The state of the database file a new ContactStorage is pointed at. -/
inductive DbFileState where
  /-- No database yet: _init_db creates the empty table. -/
  | missing
  /-- A healthy database holding these rows. -/
  | healthy (db : Db)
  /-- Opening or preparing the database raises sqlite3.Error. -/
  | corrupt
deriving DecidableEq, Repr

/-- ContactStorage.__init__ via _init_db of src/storage.py: CREATE TABLE
IF NOT EXISTS preserves existing rows; on sqlite3.Error the handler logs
and re-raises, so construction fails. -/
def sqliteInit : DbFileState → Except String Db
  | .missing => .ok []
  | .healthy db => .ok db
  | .corrupt => .error "sqlite3.Error"

/-- add_contact of src/storage.py: validation first; then INSERT, which
raises sqlite3.IntegrityError when the stripped name collides with an
existing row under the NOCASE primary key (caught, returns false);
otherwise the row is appended and the statement reports rowcount 1. -/
def sqliteAddContact (db : Db) (c : Contact) : Bool × Db :=
  if !validateContact c then (false, db)
  else if db.any (rowMatches (pyStrip c.name)) then (false, db)
  else (true, db ++ [rowOfContact c])

/-- The ordering realised by ORDER BY name COLLATE NOCASE: byte order of
the case-folded names. -/
def rowLe (a b : Row) : Prop :=
  charsLe (lowerChars a.name.data) (lowerChars b.name.data) = true

instance : DecidableRel rowLe := fun _ _ => instDecidableEqBool _ _

/-- get_all_contacts of src/storage.py: SELECT ... ORDER BY name COLLATE
NOCASE, each row converted to a fresh Contact. -/
def sqliteGetAllContacts (db : Db) : List Contact :=
  (List.insertionSort rowLe db).map contactOfRow

/-- get_contact_by_name of src/storage.py: blank input short-circuits to
None; otherwise the first row whose name NOCASE-matches the stripped
query is fetched and converted. -/
def sqliteGetContactByName (db : Db) (name : String) : Option Contact :=
  if isBlank name then none
  else (db.find? (rowMatches (pyStrip name))).map contactOfRow

/-- update_contact of src/storage.py (the later definition of that name
in the module, which Python keeps): blank-name guard, validation of the
replacement, then UPDATE ... WHERE name = ? COLLATE NOCASE.  A statement
matching no row reports rowcount 0 (false, nothing changed).  A
statement whose new name collides with a different row under the NOCASE
primary key raises sqlite3.IntegrityError, which the except branch
catches after the statement was rolled back (false, nothing changed).
Otherwise every matching row receives the new column values. -/
def sqliteUpdateContact (db : Db) (name : String) (uc : Contact) : Bool × Db :=
  if isBlank name then (false, db)
  else if !validateContact uc then (false, db)
  else if !(db.any (rowMatches (pyStrip name))) then (false, db)
  else
    let newDb := db.map fun r => if rowMatches (pyStrip name) r then rowOfContact uc else r
    if ciNodup newDb then (true, newDb) else (false, db)

/-- delete_contact of src/storage.py: blank-name guard, then
DELETE ... WHERE name = ? COLLATE NOCASE; the reported success is
rowcount > 0. -/
def sqliteDeleteContact (db : Db) (name : String) : Bool × Db :=
  if isBlank name then (false, db)
  else (db.any (rowMatches (pyStrip name)),
        db.filter fun r => !rowMatches (pyStrip name) r)

/-! ### Helper lemmas -/

/-- The NOCASE ordering is total. -/
lemma charsLe_total (as bs : List Char) :
    charsLe as bs = true ∨ charsLe bs as = true := by
  induction as generalizing bs with
  | nil => exact Or.inl rfl
  | cons a as ih =>
    cases bs with
    | nil => exact Or.inr rfl
    | cons b bs =>
      rcases Nat.lt_trichotomy a.toNat b.toNat with h | h | h
      · exact Or.inl (by simp [charsLe, h])
      · have hba : ¬ b.toNat < a.toNat := by omega
        have hab : ¬ a.toNat < b.toNat := by omega
        rcases ih bs with h2 | h2
        · exact Or.inl (by simp [charsLe, hab, hba, h2])
        · exact Or.inr (by simp [charsLe, hab, hba, h2])
      · exact Or.inr (by simp [charsLe, h])

/-- The NOCASE ordering is transitive. -/
lemma charsLe_trans (as : List Char) : ∀ bs cs, charsLe as bs = true →
    charsLe bs cs = true → charsLe as cs = true := by
  induction as with
  | nil => intro bs cs _ _; rfl
  | cons a as ih =>
    intro bs cs h1 h2
    cases bs with
    | nil => exact absurd h1 (by simp [charsLe])
    | cons b bs =>
      cases cs with
      | nil => exact absurd h2 (by simp [charsLe])
      | cons c cs =>
        simp only [charsLe] at h1 h2 ⊢
        rcases Nat.lt_trichotomy a.toNat b.toNat with hab | hab | hab
        · rcases Nat.lt_trichotomy b.toNat c.toNat with hbc | hbc | hbc
          · rw [if_pos (by omega : a.toNat < c.toNat)]
          · rw [if_pos (by omega : a.toNat < c.toNat)]
          · rw [if_neg (by omega : ¬ b.toNat < c.toNat),
              if_pos (by omega : c.toNat < b.toNat)] at h2
            exact absurd h2 (by simp)
        · rcases Nat.lt_trichotomy b.toNat c.toNat with hbc | hbc | hbc
          · rw [if_pos (by omega : a.toNat < c.toNat)]
          · rw [if_neg (by omega : ¬ a.toNat < b.toNat),
              if_neg (by omega : ¬ b.toNat < a.toNat)] at h1
            rw [if_neg (by omega : ¬ b.toNat < c.toNat),
              if_neg (by omega : ¬ c.toNat < b.toNat)] at h2
            rw [if_neg (by omega : ¬ a.toNat < c.toNat),
              if_neg (by omega : ¬ c.toNat < a.toNat)]
            exact ih bs cs h1 h2
          · rw [if_neg (by omega : ¬ b.toNat < c.toNat),
              if_pos (by omega : c.toNat < b.toNat)] at h2
            exact absurd h2 (by simp)
        · rw [if_neg (by omega : ¬ a.toNat < b.toNat),
            if_pos (by omega : b.toNat < a.toNat)] at h1
          exact absurd h1 (by simp)

instance : IsTotal Row rowLe :=
  ⟨fun a b => charsLe_total (lowerChars a.name.data) (lowerChars b.name.data)⟩

instance : IsTrans Row rowLe :=
  ⟨fun a b c => charsLe_trans (lowerChars a.name.data)
    (lowerChars b.name.data) (lowerChars c.name.data)⟩

/-- ciNodup is the Nodup predicate on the case-folded name column. -/
lemma ciNodup_iff (db : Db) :
    ciNodup db = true ↔ (db.map fun r => pyLower r.name).Nodup := by
  induction db with
  | nil => simp [ciNodup]
  | cons r rs ih =>
    simp only [ciNodup, List.map_cons, List.nodup_cons, Bool.and_eq_true,
      Bool.not_eq_true', List.any_eq_false, ih, List.mem_map]
    constructor
    · rintro ⟨h1, h2⟩
      refine ⟨?_, h2⟩
      rintro ⟨r2, hr2, hEq⟩
      have := h1 r2 hr2
      simp [ciEq, hEq] at this
    · rintro ⟨h1, h2⟩
      refine ⟨?_, h2⟩
      intro r2 hr2
      intro hEq
      exact h1 ⟨r2, hr2, eq_of_beq hEq⟩

/-- A table holding, at distinct positions, a row matching the folded
query and a row not matching it but carrying the same folded name as the
replacement, fails the ciNodup check after the UPDATE map. -/
lemma ciNodup_map_update_false (db : Db) (q : String) (uc : Contact)
    (r0 : Row) (hr0 : r0 ∈ db) (hm0 : rowMatches q r0 = true)
    (r2 : Row) (hr2 : r2 ∈ db) (hm2 : rowMatches q r2 = false)
    (hname : pyLower r2.name = pyLower (pyStrip uc.name)) :
    ciNodup (db.map fun r => if rowMatches q r then rowOfContact uc else r) = false := by
  by_contra hcontra
  have hnodup : ciNodup (db.map fun r => if rowMatches q r then rowOfContact uc else r) = true := by
    cases hb : ciNodup (db.map fun r => if rowMatches q r then rowOfContact uc else r)
    · exact absurd hb hcontra
    · rfl
  rw [ciNodup_iff, List.map_map] at hnodup
  have hinj := List.inj_on_of_nodup_map hnodup
  have e0 : pyLower (Row.name (if rowMatches q r0 then rowOfContact uc else r0))
      = pyLower (pyStrip uc.name) := by
    rw [if_pos hm0]
    rfl
  have e2 : pyLower (Row.name (if rowMatches q r2 then rowOfContact uc else r2))
      = pyLower (pyStrip uc.name) := by
    rw [hm2]
    simpa using hname
  have hEq : r0 = r2 := hinj hr0 hr2 (by rw [Function.comp_apply, Function.comp_apply, e0, e2])
  rw [hEq, hm2] at hm0
  exact Bool.noConfusion hm0

/-- Reading back the row written for a contact strips name and phone,
normalises the optionals, and round-trips the timestamp. -/
lemma contactOfRow_rowOfContact (c : Contact) :
    contactOfRow (rowOfContact c) =
      ⟨pyStrip c.name, pyStrip c.phone, stripOpt c.email, stripOpt c.notes,
        c.last_contacted⟩ := by
  simp only [contactOfRow, rowOfContact]
  cases c.last_contacted <;> rfl

/-- JSON serialization of a single contact round-trips. -/
lemma from_json_to_json (c : Contact) : Contact.from_json (Contact.to_json c) = c := by
  cases c with
  | mk name phone email notes last =>
    cases last <;> simp [Contact.to_json, Contact.from_json, isoformat, fromisoformat]

/-- validateContact guarantees the stripped name is non-empty. -/
lemma validate_name_not_blank (c : Contact) (h : validateContact c = true) :
    isBlank c.name = false := by
  rw [validateContact] at h
  rw [isBlank]
  by_cases h1 : c.name == "" ∨ pyStrip c.name == ""
  · rw [if_pos (by simpa using h1)] at h; cases h
  · push_neg at h1
    simpa using h1.2

/-- On success, sqliteUpdateContact leaves a table that passes the
ciNodup check, in which lookup by the replacement name finds exactly the
written row. -/
lemma sqliteUpdate_success_getByName (db : Db) (name : String) (uc : Contact)
    (h : (sqliteUpdateContact db name uc).1 = true) :
    sqliteGetContactByName (sqliteUpdateContact db name uc).2 uc.name
      = some (contactOfRow (rowOfContact uc)) := by
  rw [sqliteUpdateContact] at h ⊢
  by_cases hb : isBlank name = true
  · rw [if_pos hb] at h; cases h
  rw [if_neg hb] at h ⊢
  by_cases hv : validateContact uc = true
  swap
  · rw [if_pos (by simpa using hv)] at h; cases h
  rw [if_neg (by simp [hv])] at h ⊢
  by_cases hany : db.any (rowMatches (pyStrip name)) = true
  swap
  · rw [if_pos (by simpa using hany)] at h; cases h
  rw [if_neg (by simp [hany])] at h ⊢
  set newDb := db.map fun r => if rowMatches (pyStrip name) r then rowOfContact uc else r with hnewDb
  by_cases hnd : ciNodup newDb = true
  swap
  · rw [if_neg hnd] at h; cases h
  rw [if_pos hnd] at h ⊢
  -- the lookup over the updated table
  rw [sqliteGetContactByName, if_neg (by simp [validate_name_not_blank uc hv])]
  obtain ⟨r0, hr0, hm0⟩ := List.any_eq_true.mp hany
  -- the written row is present and matches the lookup
  have hmem : rowOfContact uc ∈ newDb := by
    rw [hnewDb]
    refine List.mem_map.mpr ⟨r0, hr0, ?_⟩
    rw [if_pos hm0]
  have hmatch : rowMatches (pyStrip uc.name) (rowOfContact uc) = true := by
    simp [rowMatches, ciEq, rowOfContact]
  have hsome : (newDb.find? (rowMatches (pyStrip uc.name))).isSome = true :=
    List.find?_isSome.mpr ⟨_, hmem, hmatch⟩
  obtain ⟨y, hy⟩ := Option.isSome_iff_exists.mp hsome
  have hyMem : y ∈ newDb := List.mem_of_find?_eq_some hy
  have hyMatch : rowMatches (pyStrip uc.name) y = true := List.find?_some hy
  -- every row of the updated table matching the replacement name is the
  -- written row, else the ciNodup check would have failed
  have hyEq : y = rowOfContact uc := by
    rw [hnewDb] at hyMem
    obtain ⟨r, hr, hfr⟩ := List.mem_map.mp hyMem
    by_cases hrM : rowMatches (pyStrip name) r = true
    · rw [if_pos hrM] at hfr; exact hfr.symm
    · rw [if_neg hrM] at hfr
      exfalso
      have hrname : pyLower r.name = pyLower (pyStrip uc.name) := by
        have := hyMatch
        rw [← hfr] at this
        exact eq_of_beq this
      have := ciNodup_map_update_false db (pyStrip name) uc r0 hr0 hm0 r hr
        (by simpa using hrM) hrname
      rw [← hnewDb] at this
      rw [this] at hnd
      cases hnd
  rw [hy, hyEq, Option.map_some']

/-- A successful jsonUpdateContact leaves the replacement record,
unmodified, in the collection. -/
lemma jsonUpdate_success_mem (cs : List Contact) (name : String) (uc : Contact)
    (h : (jsonUpdateContact cs name uc).1 = true) :
    uc ∈ (jsonUpdateContact cs name uc).2 := by
  induction cs with
  | nil => cases h
  | cons c rest ih =>
    rw [jsonUpdateContact] at h ⊢
    by_cases hc : ciEq c.name name = true
    · rw [if_pos hc]
      exact List.mem_cons_self _ _
    · rw [if_neg hc] at h ⊢
      exact List.mem_cons_of_mem _ (ih h)

/-- jsonUpdateContact on a collection with no matching name reports
false and returns the collection unchanged. -/
lemma jsonUpdate_no_match (cs : List Contact) (name : String) (uc : Contact)
    (h : ∀ c ∈ cs, pyLower c.name ≠ pyLower name) :
    jsonUpdateContact cs name uc = (false, cs) := by
  induction cs with
  | nil => rfl
  | cons c rest ih =>
    rw [jsonUpdateContact]
    rw [if_neg (by simpa [ciEq] using h c (List.mem_cons_self c rest))]
    rw [ih fun c2 h2 => h c2 (List.mem_cons_of_mem c h2)]

/-- jsonDeleteContact on a collection with no matching name reports
false and returns the collection unchanged. -/
lemma jsonDelete_no_match (cs : List Contact) (name : String)
    (h : ∀ c ∈ cs, pyLower c.name ≠ pyLower name) :
    jsonDeleteContact cs name = (false, cs) := by
  induction cs with
  | nil => rfl
  | cons c rest ih =>
    rw [jsonDeleteContact]
    rw [if_neg (by simpa [ciEq] using h c (List.mem_cons_self c rest))]
    rw [ih fun c2 h2 => h c2 (List.mem_cons_of_mem c h2)]

/-- Appending a row whose folded name is fresh keeps the ciNodup
invariant. -/
lemma ciNodup_append (db : Db) (r : Row) (hdb : ciNodup db = true)
    (h : ∀ r2 ∈ db, pyLower r2.name ≠ pyLower r.name) :
    ciNodup (db ++ [r]) = true := by
  rw [ciNodup_iff] at hdb ⊢
  rw [List.map_append, List.map_singleton]
  rw [List.nodup_append]
  refine ⟨hdb, List.nodup_singleton _, ?_⟩
  intro x hx hx1
  obtain ⟨r2, hr2, hr2x⟩ := List.mem_map.mp hx
  rw [List.mem_singleton] at hx1
  exact h r2 hr2 (by rw [hr2x, hx1])

/-- Filtering rows keeps the ciNodup invariant. -/
lemma ciNodup_filter (db : Db) (p : Row → Bool) (hdb : ciNodup db = true) :
    ciNodup (db.filter p) = true := by
  rw [ciNodup_iff] at hdb ⊢
  exact hdb.sublist ((List.filter_sublist db).map _)

/-- sqliteAddContact keeps the ciNodup invariant. -/
lemma sqliteAdd_preserves_ciNodup (db : Db) (c : Contact) (hdb : ciNodup db = true) :
    ciNodup (sqliteAddContact db c).2 = true := by
  rw [sqliteAddContact]
  by_cases hv : validateContact c = true
  swap
  · rw [if_pos (by simpa using hv)]; exact hdb
  rw [if_neg (by simp [hv])]
  by_cases hany : db.any (rowMatches (pyStrip c.name)) = true
  · rw [if_pos hany]; exact hdb
  · rw [if_neg hany]
    refine ciNodup_append db _ hdb ?_
    intro r2 hr2 hEq
    refine hany (List.any_eq_true.mpr ⟨r2, hr2, ?_⟩)
    simp only [rowMatches, ciEq, rowOfContact] at hEq ⊢
    exact beq_iff_eq.mpr hEq

/-- sqliteUpdateContact keeps the ciNodup invariant. -/
lemma sqliteUpdate_preserves_ciNodup (db : Db) (name : String) (uc : Contact)
    (hdb : ciNodup db = true) :
    ciNodup (sqliteUpdateContact db name uc).2 = true := by
  rw [sqliteUpdateContact]
  by_cases hb : isBlank name = true
  · rw [if_pos hb]; exact hdb
  rw [if_neg hb]
  by_cases hv : validateContact uc = true
  swap
  · rw [if_pos (by simpa using hv)]; exact hdb
  rw [if_neg (by simp [hv])]
  by_cases hany : db.any (rowMatches (pyStrip name)) = true
  swap
  · rw [if_pos (by simpa using hany)]; exact hdb
  rw [if_neg (by simp [hany])]
  by_cases hnd : ciNodup (db.map fun r =>
      if rowMatches (pyStrip name) r then rowOfContact uc else r) = true
  · rw [if_pos hnd]; exact hnd
  · rw [if_neg hnd]; exact hdb

/-- sqliteDeleteContact keeps the ciNodup invariant. -/
lemma sqliteDelete_preserves_ciNodup (db : Db) (name : String)
    (hdb : ciNodup db = true) :
    ciNodup (sqliteDeleteContact db name).2 = true := by
  rw [sqliteDeleteContact]
  by_cases hb : isBlank name = true
  · rw [if_pos hb]; exact hdb
  · rw [if_neg hb]
    exact ciNodup_filter db _ hdb

/-- A contact whose field values are already in the shape the SQLite
store persists: name and phone carry no surrounding whitespace and the
optionals are either absent or non-empty stripped text. -/
def normalizedContact (c : Contact) : Bool :=
  pyStrip c.name == c.name && pyStrip c.phone == c.phone &&
  stripOpt c.email == c.email && stripOpt c.notes == c.notes

/-- For normalized contacts the write-then-read composition is the
identity. -/
lemma contactOfRow_rowOfContact_norm (c : Contact) (h : normalizedContact c = true) :
    contactOfRow (rowOfContact c) = c := by
  rw [contactOfRow_rowOfContact]
  simp only [normalizedContact, Bool.and_eq_true, beq_iff_eq] at h
  obtain ⟨⟨⟨h1, h2⟩, h3⟩, h4⟩ := h
  cases c
  simp_all

/-- Folding the JSON add over a list of contacts appends them in
order. -/
lemma foldl_jsonAdd (cs : List Contact) : ∀ acc, List.foldl jsonAddContact acc cs = acc ++ cs := by
  induction cs with
  | nil => intro acc; simp
  | cons c rest ih =>
    intro acc
    rw [List.foldl_cons, jsonAddContact, ih, List.append_assoc, List.singleton_append]

/-- Folding the SQLite add over valid, normalized, pairwise
case-insensitively distinct contacts appends one stripped row per
contact. -/
lemma foldl_sqliteAdd : ∀ (cs : List Contact) (db : Db),
    (∀ c ∈ cs, validateContact c = true ∧ normalizedContact c = true) →
    List.Pairwise (fun a b => pyLower a.name ≠ pyLower b.name) cs →
    (∀ c ∈ cs, ∀ r ∈ db, pyLower r.name ≠ pyLower c.name) →
    List.foldl (fun db c => (sqliteAddContact db c).2) db cs = db ++ cs.map rowOfContact := by
  intro cs
  induction cs with
  | nil => intro db _ _ _; simp
  | cons c rest ih =>
    intro db hv hpw hdis
    have hvc := hv c (List.mem_cons_self _ _)
    have hnorm : pyStrip c.name = c.name := by
      have := hvc.2
      simp only [normalizedContact, Bool.and_eq_true, beq_iff_eq] at this
      exact this.1.1.1
    have hany : db.any (rowMatches (pyStrip c.name)) = false := by
      rw [List.any_eq_false]
      intro r hr
      simp only [rowMatches, ciEq, Bool.not_eq_true, beq_eq_false_iff_ne, ne_eq]
      rw [hnorm]
      exact hdis c (List.mem_cons_self _ _) r hr
    have hstep : (sqliteAddContact db c).2 = db ++ [rowOfContact c] := by
      rw [sqliteAddContact, if_neg (by simp [hvc.1]), if_neg (by simp [hany])]
    obtain ⟨hhead, htail⟩ := List.pairwise_cons.mp hpw
    rw [List.foldl_cons, hstep,
      ih (db ++ [rowOfContact c])
        (fun c2 h2 => hv c2 (List.mem_cons_of_mem c h2)) htail ?_]
    · rw [List.append_assoc, List.singleton_append, List.map_cons]
    · intro c2 h2 r hr
      rcases List.mem_append.mp hr with hr | hr
      · exact hdis c2 (List.mem_cons_of_mem c h2) r hr
      · rw [List.mem_singleton] at hr
        rw [hr]
        show pyLower (rowOfContact c).name ≠ pyLower c2.name
        rw [show (rowOfContact c).name = pyStrip c.name from rfl, hnorm]
        exact hhead c2 h2

/-! ### Claims -/

/-- C1, counterexample: the JSON-file-backed add_contact performs no
duplicate check at all — adding a contact whose name differs from a
stored name only by case mutates the in-memory collection (and is then
persisted), so the claimed behaviour does not hold in both stores. -/
theorem json_add_duplicate_mutates :
    pyLower "alice" = pyLower "Alice" ∧
    jsonAddContact [⟨"Alice", "555-0100", none, none, none⟩]
        ⟨"alice", "555-0200", none, none, none⟩
      ≠ [⟨"Alice", "555-0100", none, none, none⟩] :=
  ⟨by decide, by decide⟩

/-- C1, amended: in the SQLite-backed store, adding a contact whose
stripped name case-insensitively equals a stored name fails with false
and leaves the table untouched, and all three mutating operations
preserve case-insensitive uniqueness of names; the JSON-file-backed
add_contact appends unconditionally. -/
theorem sqlite_add_duplicate_rejected_and_uniqueness_preserved :
    (∀ (db : Db) (c : Contact), (∃ r ∈ db, pyLower r.name = pyLower (pyStrip c.name)) →
        sqliteAddContact db c = (false, db)) ∧
    (∀ (db : Db) (c : Contact), ciNodup db = true → ciNodup (sqliteAddContact db c).2 = true) ∧
    (∀ (db : Db) (name : String) (uc : Contact), ciNodup db = true →
        ciNodup (sqliteUpdateContact db name uc).2 = true) ∧
    (∀ (db : Db) (name : String), ciNodup db = true →
        ciNodup (sqliteDeleteContact db name).2 = true) ∧
    (∀ (cs : List Contact) (c : Contact), jsonAddContact cs c = cs ++ [c]) := by
  refine ⟨?_, sqliteAdd_preserves_ciNodup, sqliteUpdate_preserves_ciNodup,
    sqliteDelete_preserves_ciNodup, fun cs c => rfl⟩
  rintro db c ⟨r, hr, hEq⟩
  rw [sqliteAddContact]
  by_cases hv : validateContact c = true
  · rw [if_neg (by simp [hv]),
      if_pos (List.any_eq_true.mpr ⟨r, hr, by simp [rowMatches, ciEq, hEq]⟩)]
  · rw [if_pos (by simpa using hv)]

/-- C1, witness for the amended theorem at a concrete store. -/
theorem sqlite_add_duplicate_rejected_witness :
    sqliteAddContact [⟨"Alice", "555-0100", none, none, none⟩]
        ⟨"alice", "555-0200", none, none, none⟩
      = (false, [⟨"Alice", "555-0100", none, none, none⟩]) ∧
    ciNodup (sqliteAddContact [⟨"Alice", "555-0100", none, none, none⟩]
        ⟨"Bob", "555-0300", none, none, none⟩).2 = true :=
  ⟨sqlite_add_duplicate_rejected_and_uniqueness_preserved.1 _ _
      ⟨⟨"Alice", "555-0100", none, none, none⟩, by decide, by decide⟩,
    sqlite_add_duplicate_rejected_and_uniqueness_preserved.2.1 _ _ (by decide)⟩

/-- C2, counterexample: in both stores, updating a contact with the
replacement's last_contacted unset clears the stored value instead of
retaining it — the claimed merge rule exists in neither implementation. -/
theorem update_with_unset_last_contacted_clears :
    sqliteUpdateContact [⟨"Bob", "555-0100", none, none, some "2024-01-01T00:00:00"⟩] "Bob"
        ⟨"Bob", "555-0100", none, none, none⟩
      = (true, [⟨"Bob", "555-0100", none, none, none⟩]) ∧
    jsonUpdateContact [⟨"Bob", "555-0100", none, none, some "2024-01-01T00:00:00"⟩] "Bob"
        ⟨"Bob", "555-0100", none, none, none⟩
      = (true, [⟨"Bob", "555-0100", none, none, none⟩]) :=
  ⟨by decide, by decide⟩

/-- C2, amended: a successful update replaces every field with the
replacement's fields, last_contacted included — an unset replacement
last_contacted overwrites (clears) the stored value: in the SQLite store
the record looked up under the replacement name afterwards carries
exactly the replacement's last_contacted, and in the JSON store the
replacement record itself, wholesale, is what the collection holds. -/
theorem update_overwrites_last_contacted (db : Db) (name : String) (uc : Contact)
    (cs : List Contact) (name2 : String) (uc2 : Contact)
    (h : (sqliteUpdateContact db name uc).1 = true)
    (h2 : (jsonUpdateContact cs name2 uc2).1 = true) :
    ((sqliteGetContactByName (sqliteUpdateContact db name uc).2 uc.name).map
        Contact.last_contacted) = some uc.last_contacted ∧
    uc2 ∈ (jsonUpdateContact cs name2 uc2).2 := by
  constructor
  · rw [sqliteUpdate_success_getByName db name uc h, contactOfRow_rowOfContact,
      Option.map_some']
  · exact jsonUpdate_success_mem cs name2 uc2 h2

/-- C2, witness for the amended theorem at a concrete store. -/
theorem update_overwrites_last_contacted_witness :
    ((sqliteGetContactByName
        (sqliteUpdateContact [⟨"Bob", "555-0100", none, none, some "2024-01-01T00:00:00"⟩]
          "Bob" ⟨"Bob", "555-0199", none, none, none⟩).2 "Bob").map
        Contact.last_contacted) = some none ∧
    (⟨"Bob", "555-0199", none, none, none⟩ : Contact) ∈
      (jsonUpdateContact [⟨"Bob", "555-0100", none, none, some "2024-01-01T00:00:00"⟩]
        "Bob" ⟨"Bob", "555-0199", none, none, none⟩).2 :=
  update_overwrites_last_contacted _ "Bob" _ _ "Bob" _ (by decide) (by decide)

/-- C3, counterexample: the JSON-file-backed get_all_contacts returns
the internal collection as-is, in insertion order, not sorted by name. -/
theorem json_get_all_unsorted :
    jsonGetAllContacts
        [⟨"b", "555-0100", none, none, none⟩, ⟨"A", "555-0200", none, none, none⟩]
      = [⟨"b", "555-0100", none, none, none⟩, ⟨"A", "555-0200", none, none, none⟩] ∧
    ¬ List.Pairwise
        (fun a b : Contact => charsLe (lowerChars a.name.data) (lowerChars b.name.data) = true)
        (jsonGetAllContacts
          [⟨"b", "555-0100", none, none, none⟩, ⟨"A", "555-0200", none, none, none⟩]) :=
  ⟨by decide, by decide⟩

/-- C3, amended: the SQLite-backed get_all_contacts returns a fresh list
of the table's rows sorted ascending by case-folded name; the JSON-file
backed get_all_contacts returns the internal collection itself in
insertion order, with no sorting (and, being the internal list object,
aliased — an aliasing fact outside a functional embedding). -/
theorem get_all_ordering :
    (∀ db : Db, List.Pairwise
        (fun a b : Contact => charsLe (lowerChars a.name.data) (lowerChars b.name.data) = true)
        (sqliteGetAllContacts db)) ∧
    (∀ db : Db, (sqliteGetAllContacts db).Perm (db.map contactOfRow)) ∧
    (∀ cs : List Contact, jsonGetAllContacts cs = cs) := by
  refine ⟨?_, ?_, fun cs => rfl⟩
  · intro db
    have hs : List.Sorted rowLe (List.insertionSort rowLe db) :=
      List.sorted_insertionSort rowLe db
    exact List.Pairwise.map contactOfRow (fun a b h => h) hs
  · intro db
    exact (List.perm_insertionSort rowLe db).map contactOfRow

/-- C4, counterexample: a backing store that exists but is unreadable
makes construction raise instead of degrading to an empty collection:
the JSON store only catches FileNotFoundError, so empty or malformed
file content escapes as JSONDecodeError, and the SQLite store re-raises
sqlite3.Error out of _init_db. -/
theorem corrupt_backing_raises :
    load_contacts JsonFileState.fileEmpty = Except.error "json.JSONDecodeError" ∧
    load_contacts JsonFileState.malformed = Except.error "json.JSONDecodeError" ∧
    sqliteInit DbFileState.corrupt = Except.error "sqlite3.Error" :=
  ⟨rfl, rfl, rfl⟩

/-- C4, amended: only an absent backing store initializes to an empty
collection without error; readable backing data loads; but empty or
corrupt backing content raises (JSONDecodeError from json.load in the
JSON store, re-raised sqlite3.Error in the SQLite store) instead of
being treated as empty. -/
theorem load_error_handling :
    load_contacts JsonFileState.missing = Except.ok [] ∧
    sqliteInit DbFileState.missing = Except.ok [] ∧
    (∀ cs, load_contacts (JsonFileState.data cs) = Except.ok (cs.map Contact.from_json)) ∧
    (∀ db, sqliteInit (DbFileState.healthy db) = Except.ok db) ∧
    load_contacts JsonFileState.fileEmpty = Except.error "json.JSONDecodeError" ∧
    load_contacts JsonFileState.malformed = Except.error "json.JSONDecodeError" ∧
    sqliteInit DbFileState.corrupt = Except.error "sqlite3.Error" :=
  ⟨rfl, rfl, fun _ => rfl, fun _ => rfl, rfl, rfl, rfl⟩

/-- C5, counterexample: the SQLite-backed get_contact_by_name strips
the query before matching, so the query " alice " — case-insensitively
equal to no stored name — still returns the contact stored as Alice;
lookup success is therefore not equivalent to case-insensitive equality
with the query as given. -/
theorem get_by_name_strips_query :
    (sqliteGetContactByName [⟨"Alice", "555-0100", none, none, none⟩] " alice ").isSome
      = true ∧
    pyLower "Alice" ≠ pyLower " alice " :=
  ⟨by decide, by decide⟩

/-- C5, amended: the SQLite-backed lookup succeeds exactly when the
query is not blank and some stored name is case-insensitively equal to
the STRIPPED query (still full-string, no partial matching); the
JSON-backed lookup succeeds exactly when some stored name is
case-insensitively equal to the query as given; and the query alice
finds a contact stored as Alice in both stores. -/
theorem get_by_name_characterization :
    (∀ (db : Db) (q : String), (sqliteGetContactByName db q).isSome = true ↔
        (isBlank q = false ∧ ∃ r ∈ db, pyLower r.name = pyLower (pyStrip q))) ∧
    (∀ (cs : List Contact) (q : String), (jsonGetContactByName cs q).isSome = true ↔
        ∃ c ∈ cs, pyLower c.name = pyLower q) ∧
    (sqliteGetContactByName [⟨"Alice", "555-0100", none, none, none⟩] "alice").isSome
      = true ∧
    (jsonGetContactByName [⟨"Alice", "555-0100", none, none, none⟩] "alice").isSome
      = true := by
  refine ⟨?_, ?_, by decide, by decide⟩
  · intro db q
    rw [sqliteGetContactByName]
    by_cases hb : isBlank q = true
    · rw [if_pos hb]
      simp [hb]
    · rw [if_neg hb]
      rw [Option.isSome_map', List.find?_isSome]
      simp only [rowMatches, ciEq, beq_iff_eq]
      simp [Bool.not_eq_true] at hb
      simp [hb]
  · intro cs q
    rw [jsonGetContactByName, List.find?_isSome]
    simp only [ciEq, beq_iff_eq]

/-- C6, counterexample: validation is neither exactly non-emptiness nor
free of phone format checks: the model layer of src/models.py rejects
the non-empty phone 123 (pydantic min_length 5), and the store layer of
src/storage.py rejects a whitespace-only (hence non-empty) phone. -/
theorem nonempty_phone_rejected :
    contactNew "Ann" "123" none none none = none ∧
    "123" ≠ "" ∧
    validateContact ⟨"Ann", " ", none, none, none⟩ = false ∧
    " " ≠ "" :=
  ⟨by decide, by decide, by decide, by decide⟩

/-- C6, amended: the SQLite store's pre-persist validation rejects a
record exactly when its name or phone is empty or whitespace-only; the
record type of src/models.py additionally enforces length bounds at
construction (name 1..100, phone 5..20, email up to 100, notes up to
1000), so phone does carry a length constraint beyond non-emptiness.
(The JSON-variant record and store validate nothing.) -/
theorem validation_characterization :
    (∀ c : Contact, validateContact c = true ↔
        (pyStrip c.name ≠ "" ∧ pyStrip c.phone ≠ "")) ∧
    (∀ (name phone : String) (email notes : Option String) (lc : Option PyDateTime),
        (contactNew name phone email notes lc).isSome = true ↔
          (1 ≤ name.length ∧ name.length ≤ 100 ∧
           5 ≤ phone.length ∧ phone.length ≤ 20 ∧
           (∀ e, email = some e → e.length ≤ 100) ∧
           (∀ n, notes = some n → n.length ≤ 1000))) := by
  constructor
  · intro c
    rw [validateContact]
    constructor
    · intro h
      by_cases h1 : (c.name == "" || pyStrip c.name == "") = true
      · rw [if_pos h1] at h; cases h
      · rw [if_neg h1] at h
        by_cases h2 : (c.phone == "" || pyStrip c.phone == "") = true
        · rw [if_pos h2] at h; cases h
        · simp only [Bool.or_eq_true, beq_iff_eq, not_or] at h1 h2
          exact ⟨h1.2, h2.2⟩
    · rintro ⟨h1, h2⟩
      have hn : c.name ≠ "" := fun hEq => h1 (by rw [hEq]; decide)
      have hp : c.phone ≠ "" := fun hEq => h2 (by rw [hEq]; decide)
      rw [if_neg (by simp [hn, h1]), if_neg (by simp [hp, h2])]
  · intro name phone email notes lc
    constructor
    · intro h
      by_cases hv : pydanticValid name phone email notes = true
      · simp only [pydanticValid, Bool.and_eq_true, decide_eq_true_eq] at hv
        obtain ⟨⟨⟨⟨⟨n1, n2⟩, p1⟩, p2⟩, he⟩, hn⟩ := hv
        refine ⟨n1, n2, p1, p2, ?_, ?_⟩
        · intro e hEq; rw [hEq] at he; simpa using he
        · intro n hEq; rw [hEq] at hn; simpa using hn
      · rw [contactNew, if_neg hv] at h
        exact absurd h (by simp)
    · rintro ⟨n1, n2, p1, p2, he, hn⟩
      rw [contactNew, if_pos ?_]
      · rfl
      · simp only [pydanticValid, Bool.and_eq_true, decide_eq_true_eq]
        refine ⟨⟨⟨⟨⟨n1, n2⟩, p1⟩, p2⟩, ?_⟩, ?_⟩
        · cases email with
          | none => rfl
          | some e => simpa using he e rfl
        · cases notes with
          | none => rfl
          | some n => simpa using hn n rfl

/-- C7, counterexample: delete_contact strips the query name, so the
padded query  bob  — case-insensitively equal to no stored name — still
deletes the contact stored as bob and returns true; the same stripping
applies to update_contact. -/
theorem delete_padded_name_succeeds :
    sqliteDeleteContact [⟨"bob", "555-0100", none, none, none⟩] " bob "
      = (true, []) ∧
    pyLower "bob" ≠ pyLower " bob " :=
  ⟨by decide, by decide⟩

/-- C7, amended: when no stored name case-insensitively equals the
STRIPPED query name in the SQLite store (respectively the query as given
in the JSON store), update_contact and delete_contact return false and
leave the collection unchanged. -/
theorem missing_name_noop (db : Db) (name : String) (uc : Contact)
    (cs : List Contact) (name2 : String) (uc2 : Contact)
    (h : ∀ r ∈ db, pyLower r.name ≠ pyLower (pyStrip name))
    (h2 : ∀ c ∈ cs, pyLower c.name ≠ pyLower name2) :
    sqliteUpdateContact db name uc = (false, db) ∧
    sqliteDeleteContact db name = (false, db) ∧
    jsonUpdateContact cs name2 uc2 = (false, cs) ∧
    jsonDeleteContact cs name2 = (false, cs) := by
  have hany : db.any (rowMatches (pyStrip name)) = false := by
    rw [List.any_eq_false]
    intro r hr
    simp only [rowMatches, ciEq, Bool.not_eq_true, beq_eq_false_iff_ne, ne_eq]
    exact h r hr
  refine ⟨?_, ?_, jsonUpdate_no_match cs name2 uc2 h2, jsonDelete_no_match cs name2 h2⟩
  · rw [sqliteUpdateContact]
    by_cases hb : isBlank name = true
    · rw [if_pos hb]
    · rw [if_neg hb]
      by_cases hv : validateContact uc = true
      · rw [if_neg (by simp [hv]), if_pos (by simp [hany])]
      · rw [if_pos (by simpa using hv)]
  · rw [sqliteDeleteContact]
    by_cases hb : isBlank name = true
    · rw [if_pos hb]
    · rw [if_neg hb, hany, List.filter_eq_self.mpr ?_]
      intro r hr
      simp only [rowMatches, ciEq, Bool.not_eq_true', beq_eq_false_iff_ne, ne_eq]
      exact h r hr

/-- C7, witness for the amended theorem at a concrete store. -/
theorem missing_name_noop_witness :
    sqliteUpdateContact [⟨"Bob", "555-0100", none, none, none⟩] "Xavier"
        ⟨"Xavier", "555-0200", none, none, none⟩
      = (false, [⟨"Bob", "555-0100", none, none, none⟩]) ∧
    sqliteDeleteContact [⟨"Bob", "555-0100", none, none, none⟩] "Xavier"
      = (false, [⟨"Bob", "555-0100", none, none, none⟩]) ∧
    jsonUpdateContact [⟨"Bob", "555-0100", none, none, none⟩] "Xavier"
        ⟨"Xavier", "555-0200", none, none, none⟩
      = (false, [⟨"Bob", "555-0100", none, none, none⟩]) ∧
    jsonDeleteContact [⟨"Bob", "555-0100", none, none, none⟩] "Xavier"
      = (false, [⟨"Bob", "555-0100", none, none, none⟩]) :=
  missing_name_noop _ "Xavier" _ _ "Xavier" _ (by decide) (by decide)

/-- C8, counterexample: the SQLite store persists stripped field
values, so a valid contact added with a trailing space in its name is
returned after reload with the normalized name, not the original field
value — the round trip does not preserve field values verbatim for
every valid contact. -/
theorem sqlite_roundtrip_strips_fields :
    (sqliteAddContact [] ⟨"Bob ", "555-0100", none, none, none⟩).1 = true ∧
    sqliteInit (DbFileState.healthy (sqliteAddContact [] ⟨"Bob ", "555-0100", none, none, none⟩).2)
      = Except.ok (sqliteAddContact [] ⟨"Bob ", "555-0100", none, none, none⟩).2 ∧
    (sqliteGetAllContacts
        (sqliteAddContact [] ⟨"Bob ", "555-0100", none, none, none⟩).2).map Contact.name
      = ["Bob"] ∧
    "Bob" ≠ "Bob " :=
  ⟨by decide, rfl, by decide, by decide⟩

/-- C8, amended: the JSON store round-trips any sequence of added
contacts verbatim (adds append in order, saving then loading the backing
file restores the same records, and get_all returns them); the SQLite
store round-trips a sequence of valid contacts whose field values are
already whitespace-normalized and whose names are pairwise
case-insensitively distinct: after adding them all and re-opening a
store over the same database, get_all_contacts returns a permutation —
an equivalent set — of exactly those contacts. -/
theorem roundtrip_persistence (cs js : List Contact)
    (hv : ∀ c ∈ cs, validateContact c = true ∧ normalizedContact c = true)
    (hpw : List.Pairwise (fun a b => pyLower a.name ≠ pyLower b.name) cs) :
    (List.foldl jsonAddContact [] js = js ∧
     load_contacts (save_contacts js) = Except.ok js ∧
     jsonGetAllContacts js = js) ∧
    (sqliteInit (DbFileState.healthy
        (List.foldl (fun db c => (sqliteAddContact db c).2) [] cs))
      = Except.ok (List.foldl (fun db c => (sqliteAddContact db c).2) [] cs) ∧
     (sqliteGetAllContacts
        (List.foldl (fun db c => (sqliteAddContact db c).2) [] cs)).Perm cs) := by
  refine ⟨⟨foldl_jsonAdd js [], ?_, rfl⟩, rfl, ?_⟩
  · rw [save_contacts, load_contacts, List.map_map]
    have hmap : ∀ c ∈ js, (Contact.from_json ∘ Contact.to_json) c = id c :=
      fun c _ => from_json_to_json c
    rw [List.map_congr_left hmap, List.map_id]
  · rw [foldl_sqliteAdd cs [] hv hpw (by intro c _ r hr; cases hr), List.nil_append]
    rw [sqliteGetAllContacts]
    refine ((List.perm_insertionSort rowLe _).map contactOfRow).trans ?_
    rw [List.map_map]
    have hmap : ∀ c ∈ cs, (contactOfRow ∘ rowOfContact) c = id c :=
      fun c hc => contactOfRow_rowOfContact_norm c (hv c hc).2
    rw [List.map_congr_left hmap, List.map_id]

/-- C8, witness for the amended theorem at a concrete pair of stores. -/
theorem roundtrip_persistence_witness :
    (List.foldl jsonAddContact []
        [⟨"Bob", "555-0100", none, none, none⟩,
         ⟨"alice", "555-0200", some "a@x.com", none, some "2024-01-01T00:00:00"⟩]
      = [⟨"Bob", "555-0100", none, none, none⟩,
         ⟨"alice", "555-0200", some "a@x.com", none, some "2024-01-01T00:00:00"⟩] ∧
     load_contacts (save_contacts
        [⟨"Bob", "555-0100", none, none, none⟩,
         ⟨"alice", "555-0200", some "a@x.com", none, some "2024-01-01T00:00:00"⟩])
      = Except.ok
        [⟨"Bob", "555-0100", none, none, none⟩,
         ⟨"alice", "555-0200", some "a@x.com", none, some "2024-01-01T00:00:00"⟩] ∧
     jsonGetAllContacts
        [⟨"Bob", "555-0100", none, none, none⟩,
         ⟨"alice", "555-0200", some "a@x.com", none, some "2024-01-01T00:00:00"⟩]
      = [⟨"Bob", "555-0100", none, none, none⟩,
         ⟨"alice", "555-0200", some "a@x.com", none, some "2024-01-01T00:00:00"⟩]) ∧
    (sqliteInit (DbFileState.healthy
        (List.foldl (fun db c => (sqliteAddContact db c).2) []
          [⟨"Bob", "555-0100", none, none, none⟩,
           ⟨"alice", "555-0200", some "a@x.com", none, some "2024-01-01T00:00:00"⟩]))
      = Except.ok (List.foldl (fun db c => (sqliteAddContact db c).2) []
          [⟨"Bob", "555-0100", none, none, none⟩,
           ⟨"alice", "555-0200", some "a@x.com", none, some "2024-01-01T00:00:00"⟩]) ∧
     (sqliteGetAllContacts
        (List.foldl (fun db c => (sqliteAddContact db c).2) []
          [⟨"Bob", "555-0100", none, none, none⟩,
           ⟨"alice", "555-0200", some "a@x.com", none, some "2024-01-01T00:00:00"⟩])).Perm
        [⟨"Bob", "555-0100", none, none, none⟩,
         ⟨"alice", "555-0200", some "a@x.com", none, some "2024-01-01T00:00:00"⟩]) :=
  roundtrip_persistence _ _ (by decide) (by decide)

/-- C9: in the SQLite store, an update that renames a contact onto the
name of a different stored contact (case-insensitively) hits the NOCASE
primary-key uniqueness constraint; the IntegrityError is caught inside
update_contact, which returns false and leaves every record unchanged. -/
theorem rename_collision_rejected (db : Db) (name : String) (uc : Contact) (r2 : Row)
    (hr2 : r2 ∈ db) (hm2 : pyLower r2.name ≠ pyLower (pyStrip name))
    (hname : pyLower r2.name = pyLower (pyStrip uc.name)) :
    sqliteUpdateContact db name uc = (false, db) := by
  rw [sqliteUpdateContact]
  by_cases hb : isBlank name = true
  · rw [if_pos hb]
  rw [if_neg hb]
  by_cases hv : validateContact uc = true
  swap
  · rw [if_pos (by simpa using hv)]
  rw [if_neg (by simp [hv])]
  by_cases hany : db.any (rowMatches (pyStrip name)) = true
  swap
  · rw [if_pos (by simpa using hany)]
  rw [if_neg (by simp [hany])]
  obtain ⟨r0, hr0, hm0⟩ := List.any_eq_true.mp hany
  have hm2b : rowMatches (pyStrip name) r2 = false := by
    simp only [rowMatches, ciEq, beq_eq_false_iff_ne, ne_eq]
    exact hm2
  have hnd := ciNodup_map_update_false db (pyStrip name) uc r0 hr0 hm0 r2 hr2 hm2b hname
  rw [if_neg (by simp [hnd])]

/-- C9, witness: renaming Bob to ALICE while Alice exists fails and
leaves the table unchanged. -/
theorem rename_collision_rejected_witness :
    sqliteUpdateContact
        [⟨"Alice", "555-0100", none, none, none⟩, ⟨"Bob", "555-0200", none, none, none⟩]
        "Bob" ⟨"ALICE", "555-0300", none, none, none⟩
      = (false,
          [⟨"Alice", "555-0100", none, none, none⟩, ⟨"Bob", "555-0200", none, none, none⟩]) :=
  rename_collision_rejected _ "Bob" _ ⟨"Alice", "555-0100", none, none, none⟩
    (by decide) (by decide) (by decide)

/-- C10: the SQLite store persists stripped field values: a successful
add stores the whitespace-normalized fields, which is what both
get_contact_by_name and get_all_contacts later return; likewise a
successful update stores the replacement's stripped fields, returned by
a lookup under the replacement name. -/
theorem add_update_store_stripped_values (db : Db) (c : Contact)
    (db2 : Db) (name : String) (uc : Contact)
    (hv : validateContact c = true)
    (hdup : ∀ r ∈ db, pyLower r.name ≠ pyLower (pyStrip c.name))
    (hu : (sqliteUpdateContact db2 name uc).1 = true) :
    (sqliteAddContact db c).1 = true ∧
    sqliteGetContactByName (sqliteAddContact db c).2 c.name
      = some ⟨pyStrip c.name, pyStrip c.phone, stripOpt c.email, stripOpt c.notes,
          c.last_contacted⟩ ∧
    (⟨pyStrip c.name, pyStrip c.phone, stripOpt c.email, stripOpt c.notes,
        c.last_contacted⟩ : Contact)
      ∈ sqliteGetAllContacts (sqliteAddContact db c).2 ∧
    sqliteGetContactByName (sqliteUpdateContact db2 name uc).2 uc.name
      = some ⟨pyStrip uc.name, pyStrip uc.phone, stripOpt uc.email, stripOpt uc.notes,
          uc.last_contacted⟩ := by
  have hany : db.any (rowMatches (pyStrip c.name)) = false := by
    rw [List.any_eq_false]
    intro r hr
    simp only [rowMatches, ciEq, Bool.not_eq_true, beq_eq_false_iff_ne, ne_eq]
    exact hdup r hr
  have hres : sqliteAddContact db c = (true, db ++ [rowOfContact c]) := by
    rw [sqliteAddContact, if_neg (by simp [hv]), if_neg (by simp [hany])]
  refine ⟨by rw [hres], ?_, ?_, ?_⟩
  · rw [hres]
    rw [sqliteGetContactByName, if_neg (by simp [validate_name_not_blank c hv])]
    rw [List.find?_append, List.find?_eq_none.mpr ?_]
    · rw [Option.none_or, List.find?_cons_of_pos _ (by simp [rowMatches, ciEq, rowOfContact]),
        Option.map_some', contactOfRow_rowOfContact]
    · intro r hr
      simp only [rowMatches, ciEq, Bool.not_eq_true, beq_eq_false_iff_ne, ne_eq]
      exact fun hEq => hdup r hr hEq
  · rw [hres]
    rw [sqliteGetAllContacts, ← contactOfRow_rowOfContact]
    refine List.mem_map_of_mem contactOfRow ?_
    rw [(List.perm_insertionSort rowLe _).mem_iff]
    exact List.mem_append.mpr (Or.inr (List.mem_singleton.mpr rfl))
  · rw [sqliteUpdate_success_getByName db2 name uc hu, contactOfRow_rowOfContact]

/-- C10, witness: a contact added with surrounding whitespace in every
field is looked up and listed with the normalized values. -/
theorem add_update_store_stripped_values_witness :
    (sqliteAddContact [] ⟨" Bob ", " 555 0100 ", some " b@x.com ", some "", none⟩).1 = true ∧
    sqliteGetContactByName
        (sqliteAddContact [] ⟨" Bob ", " 555 0100 ", some " b@x.com ", some "", none⟩).2
        " Bob "
      = some ⟨"Bob", "555 0100", some "b@x.com", none, none⟩ ∧
    (⟨"Bob", "555 0100", some "b@x.com", none, none⟩ : Contact)
      ∈ sqliteGetAllContacts
          (sqliteAddContact [] ⟨" Bob ", " 555 0100 ", some " b@x.com ", some "", none⟩).2 ∧
    sqliteGetContactByName
        (sqliteUpdateContact [⟨"Al", "555-0300", none, none, none⟩] "Al"
          ⟨" Al ", " 555 0400 ", none, none, none⟩).2
        " Al "
      = some ⟨"Al", "555 0400", none, none, none⟩ :=
  add_update_store_stripped_values [] _ [⟨"Al", "555-0300", none, none, none⟩] "Al" _
    (by decide) (by decide) (by decide)

end ContactsTui
